import Mathlib

/-!
# Verification of the process-manager terminal multiplexer

Shallow embedding of the multiplexer engine: the input decoder
(`src/utils.ts`), and the state handlers (`src/unnamed/part_001`:
`arrowHandler`, `scrollHandler`, `terminateHandler`, `trackHistory`,
`updateActiveTab`, the exit observer and `restartHandler`).

JS numbers that hold tab indices, cursor positions and viewport heights are
modelled as `Int` (all arithmetic in the source stays on small integers, so
`Int` matches JS exactly on every reachable value).  A raw terminal byte
chunk is modelled as the list of character code points of its decoded
string, which coincides with the byte list for the ASCII sequences the
handlers compare against.  History buffers are lists of strings; child
process handles are opaque and modelled by `Nat` identifiers.  Side effects
other than state mutation (signals, renders, process exit, listener
registration) are reified as an `Effect` trace.
-/

namespace ProcessManager

/-- Lifecycle status of a Process Record.  Modelled from the spec: the
source infers a child's status from its external `ChildProcess` handle
(which lives outside the repository), while the spec's data model gives
each Process Record an explicit `Running → Terminating → Exited` status. -/
inductive PStatus where
  | Running : PStatus
  | Terminating : PStatus
  | Exited : PStatus
  deriving DecidableEq

/-- The session state created by `initialState` in `src/unnamed/part_001`
(fields `tab`, `lines`, `processes`, `histories`, `cursor`), plus the
spec-modelled `statuses` field mirroring `processes` (see `PStatus`). -/
structure State where
  tab : Int
  lines : Int
  processes : List Nat
  histories : List (List String)
  cursor : Int
  statuses : List PStatus
  deriving DecidableEq

/- The `keys` table from `src/utils.ts`: SIGINT = 0x03, left = ESC [ D,
right = ESC [ C, k = 0x6b. -/
namespace keys

def SIGINT : List Nat := [0x03]

def left : List Nat := [0x1b, 0x5b, 0x44]

def right : List Nat := [0x1b, 0x5b, 0x43]

def k : List Nat := [0x6b]

end keys

/-- `isScrollEvent` from `src/utils.ts` on the decoded character codes:
test the prefix `ESC [ M`; then inspect `charCodeAt(3)` (a missing 4th
character gives `NaN`, and `NaN & 96 = 0 ≠ 96`, hence `null`); if bits
0x60 are not both set return `null`, otherwise return `-1` when bit 0x01
is set and `1` when it is clear. -/
def isScrollEvent (event : List Nat) : Option Int :=
  if event.take 3 = [27, 91, 77] then
    match event.get? 3 with
    | none => none
    | some c =>
      if c &&& 96 ≠ 96 then none
      else if c &&& 1 ≠ 0 then some (-1) else some 1
  else none

/-- `histories[i]` for an in-range index `i ≥ 0` (the only way the source
indexes `histories`); out-of-range access is totalised to `[]`. -/
def getHist (s : State) (i : Int) : List String :=
  s.histories.getD i.toNat []

/-- Write `histories[i] = l` (the source mutates the buffer in place). -/
def setHist (s : State) (i : Int) (l : List String) : State :=
  { s with histories := s.histories.set i.toNat l }

/-- One `data` event inside `trackHistory` (`src/unnamed/part_001` lines
166-177): `history.push(data)`, then if `history.length > retention`
`history.splice(0, history.length - retention)` (drop the oldest excess
lines from the front). -/
def trackHistoryPush (retention : Nat) (history : List String) (data : String) :
    List String :=
  let h := history ++ [data]
  if retention < h.length then h.drop (h.length - retention) else h

/-- A child buffer after a whole sequence of `data` events, starting (as
`trackHistory` does) from the empty buffer. -/
def trackHistoryRun (retention : Nat) (ds : List String) : List String :=
  ds.foldl (trackHistoryPush retention) []

/-- `arrowHandler` from `src/unnamed/part_001` (lines 236-254).  Note the
asymmetry of the source: the left branch reads `histories[tab]` with the
destructured (pre-update) `tab`, while the right branch reads
`state.histories[state.tab]` after the update.  The handler ends with an
unconditional `render(state)`, which touches no state. -/
def arrowHandler (data : List Nat) (s : State) : State :=
  if data = keys.left then
    let len : Int := s.histories.length
    let tab' := (s.tab + len - 1) % len
    let current := getHist s s.tab
    let maxCursor : Int := max 0 ((current.length : Int) - s.lines)
    { s with tab := tab', cursor := maxCursor }
  else if data = keys.right then
    let len : Int := s.histories.length
    let tab' := (s.tab + 1) % len
    let current := getHist s tab'
    let maxCursor : Int := max 0 ((current.length : Int) - s.lines)
    { s with tab := tab', cursor := maxCursor }
  else s

/-- `scrollHandler` from `src/unnamed/part_001` (lines 264-283).  Returns
the updated state and whether `render` ran (`state.cursor !== cursor`). -/
def scrollHandler (data : List Nat) (s : State) : State × Bool :=
  match isScrollEvent data with
  | none => (s, false)
  | some direction =>
    let current := getHist s s.tab
    let c' : Int :=
      if direction = -1 then max 0 (s.cursor - 1)
      else if direction = 1 then
        min (max 0 ((current.length : Int) - s.lines)) (s.cursor + 1)
      else s.cursor
    ({ s with cursor := c' }, c' != s.cursor)

/-- Observable side effects of the handlers, in program order: signalling a
child (`p.kill(sig)`), emitting `beforeExit`, ending the session
(`process.exit`), a full-screen `render`, and listener registration. -/
inductive Effect where
  | signal : Nat → String → Effect
  | emitBeforeExit : Effect
  | exitSession : Int → Effect
  | redraw : Effect
  | registerExitObserver : Int → Effect
  | registerRestartListener : Effect
  deriving DecidableEq

/-- `processes[i]` for an in-range index (totalised to handle `0`). -/
def getProc (s : State) (i : Int) : Nat :=
  s.processes.getD i.toNat 0

/-- `terminateHandler` from `src/unnamed/part_001` (lines 189-220).  On the
main tab: emit `beforeExit`, `kill()` (SIGTERM) every child in order, then
`process.exit` (the exit code is `process.exitCode || 0`, i.e. 0 unless the
environment set it).  On a child tab: register the one-shot exit observer,
push a blank line and a `Received SIGINT` line onto that tab's history,
render, and send that one child SIGINT. -/
def terminateHandler (data : List Nat) (s : State) : State × List Effect :=
  if data = keys.SIGINT then
    if s.tab = 0 then
      (s, Effect.emitBeforeExit ::
          (s.processes.map (fun p => Effect.signal p "SIGTERM") ++
           [Effect.exitSession 0]))
    else if s.tab > 0 then
      let currentHistory := getHist s s.tab
      let s' := setHist s s.tab (currentHistory ++ ["\n", "Received SIGINT\n"])
      (s', [Effect.registerExitObserver s.tab, Effect.redraw,
            Effect.signal (getProc s (s.tab - 1)) "SIGINT"])
    else (s, [])
  else (s, [])

/-- Modelled from the spec: the Process Record status transition performed
when a child's exit notification is handled — the record of child
`t - 1` (the child shown on tab `t`) "becomes `Exited`".  The source keeps
no status field and infers liveness from the external `ChildProcess`
handle, which is outside the repository. -/
def markExited (t : Int) (s : State) : State :=
  { s with statuses := s.statuses.set (t - 1).toNat PStatus.Exited }

/-- The notice `main.print`ed by the exit observer:
`` `Process '${tab}' exited\n` ``. -/
def exitNoticeMain (t : Int) : String :=
  "Process \x27" ++ toString t ++ "\x27 exited\n"

/-- The restart prompt pushed onto the child tab by the exit observer:
`` `Press 'K' to restart process '${tab}'\n` ``. -/
def restartPrompt (t : Int) : String :=
  "Press \x27K\x27 to restart process \x27" ++ toString t ++ "\x27\n"

/-- State change of the one-shot exit observer registered by
`terminateHandler` for child tab `t` (`src/unnamed/part_001` lines
204-211): `main.print` appends the exit notice to the main history; the
captured child history gains a blank line and the restart prompt; composed
with the spec-modelled `markExited` status transition. -/
def exitObserverState (t : Int) (s : State) : State :=
  let s1 := setHist s 0 (getHist s 0 ++ [exitNoticeMain t])
  let s2 := setHist s1 t (getHist s1 t ++ ["\n", restartPrompt t])
  markExited t s2

/-- The full exit observer: the state change of `exitObserverState`, plus
its effects — `main.print` renders, the restart listener is registered on
stdin, and if the currently active tab is still `t` it renders again
(histories and statuses updates leave `tab` untouched, so the observer's
`state.tab` read equals `s.tab`). -/
def exitObserver (t : Int) (s : State) : State × List Effect :=
  (exitObserverState t s,
    [Effect.redraw, Effect.registerRestartListener] ++
      (if s.tab = t then [Effect.redraw] else []))

/-- `restartHandler` from `src/unnamed/part_001` (lines 222-226): matches
the `k` key and then does nothing (its body is empty in the source). -/
def restartHandler (data : List Nat) (s : State) : State :=
  if data = keys.k then s else s

/-- The `trackHistory` listener's reaction to one `data` chunk from child
`i` (whose buffer sits at `histories[i + 1]`). -/
def childAppend (retention : Nat) (i : Nat) (d : String) (s : State) : State :=
  setHist s ((i : Int) + 1)
    (trackHistoryPush retention (getHist s ((i : Int) + 1)) d)

/-- One `data` emission from child `i`'s stdout.  The `trackHistory`
listener (registered first, `src/unnamed/part_001` line 39) appends with
eviction; then the `updateActiveTab` listener (lines 114-137) reads the
state: if `i + 1` is the active tab and `cursor > maxCursor - 2` (with
`maxCursor` computed from the already-updated history), it jumps the
cursor to `maxCursor` and renders; otherwise it does not render. -/
def childDataEvent (retention : Nat) (i : Nat) (d : String) (s : State) :
    State × Bool :=
  let s1 := childAppend retention i d s
  if (i : Int) + 1 = s1.tab then
    let maxCursor : Int :=
      max 0 (((getHist s1 ((i : Int) + 1)).length : Int) - s1.lines)
    if s1.cursor > maxCursor - 2 then ({ s1 with cursor := maxCursor }, true)
    else (s1, false)
  else (s1, false)

/-- The session state right after `viewProcessesInTabs` finishes
initialising with `n` child commands (`src/unnamed/part_001` lines 23-52):
`dimensions = [25, 20]` so `lines = 20`; one process handle per command
(modelled by identifiers `0..n-1`, each `Running`); `histories` is the main
buffer — holding the `Initialized!` line printed at the end of setup —
followed by one empty child buffer per process; `tab = 0`, `cursor = 0`. -/
def initSession (n : Nat) : State :=
  { tab := 0
    lines := 20
    processes := List.range n
    histories := [["Initialized!\n"]] ++ List.replicate n []
    cursor := 0
    statuses := List.replicate n PStatus.Running }

/-- One terminal input chunk dispatches through the three stdin listeners
in registration order: `terminateHandler`, `arrowHandler`,
`scrollHandler`.  (The SIGINT-on-main-tab branch ends the process before
the later listeners run; since all three are no-ops on the state for that
chunk, the composite still returns the state unchanged.) -/
def inputStep (d : List Nat) (s : State) : State :=
  (scrollHandler d (arrowHandler d (terminateHandler d s).1)).1

/-- `k` consecutive output chunks `"x"` from child 0, at the session's
child retention of 1000. -/
def pump (k : Nat) (s : State) : State :=
  match k with
  | 0 => s
  | k + 1 => pump k (childDataEvent 1000 0 "x" s).1

/-- A single transition of the running session: either a terminal input
chunk or an output chunk from some child.  (Exit notifications are omitted:
the relation under-approximates, so everything it reaches is genuinely
reachable in the program.) -/
inductive Step : State → State → Prop where
  | input : ∀ (d : List Nat) (s : State), Step s (inputStep d s)
  | childOut : ∀ (i : Nat) (d : String) (s : State),
      Step s (childDataEvent 1000 i d s).1

/-- States reachable from some initial session by `Step` transitions. -/
inductive Reachable : State → Prop where
  | init : ∀ n : Nat, Reachable (initSession n)
  | step : ∀ s s' : State, Reachable s → Step s s' → Reachable s'

/-- The spec's cursor invariant:
`0 ≤ cursor ≤ max(0, len(activeHistory) - viewportHeight)`. -/
def cursorInv (s : State) : Prop :=
  0 ≤ s.cursor ∧ s.cursor ≤ max 0 (((getHist s s.tab).length : Int) - s.lines)

instance (s : State) : Decidable (cursorInv s) := by
  unfold cursorInv
  exact inferInstance

/-! ## Helper lemmas -/

lemma getD_set_self {α : Type} (l : List α) (i : Nat) (a d : α)
    (h : i < l.length) : (l.set i a).getD i d = a := by
  simp [List.getD_eq_getElem?_getD, List.getElem?_set, h]

lemma getD_set_ne {α : Type} (l : List α) (i j : Nat) (a d : α)
    (h : i ≠ j) : (l.set i a).getD j d = l.getD j d := by
  simp [List.getD_eq_getElem?_getD, List.getElem?_set, h]

lemma getHist_setHist_self (s : State) (i : Int) (l : List String)
    (h : i.toNat < s.histories.length) : getHist (setHist s i l) i = l :=
  getD_set_self s.histories i.toNat l [] h

lemma getHist_setHist_ne (s : State) (i j : Int) (l : List String)
    (h : i.toNat ≠ j.toNat) : getHist (setHist s i l) j = getHist s j :=
  getD_set_ne s.histories i.toNat j.toNat l [] h

lemma setHist_histories_length (s : State) (i : Int) (l : List String) :
    (setHist s i l).histories.length = s.histories.length :=
  List.length_set s.histories i.toNat l

lemma getHist_markExited (t : Int) (u : State) (j : Int) :
    getHist (markExited t u) j = getHist u j := rfl

lemma setHist_statuses (s : State) (i : Int) (l : List String) :
    (setHist s i l).statuses = s.statuses := rfl

lemma exitObserver_fst (t : Int) (u : State) :
    (exitObserver t u).1 = exitObserverState t u := rfl

lemma exitObserverState_unfold (t : Int) (u : State) :
    exitObserverState t u =
      markExited t
        (setHist (setHist u 0 (getHist u 0 ++ [exitNoticeMain t])) t
          (getHist (setHist u 0 (getHist u 0 ++ [exitNoticeMain t])) t ++
            ["\n", restartPrompt t])) := rfl

lemma markExited_statuses (t : Int) (u : State) :
    (markExited t u).statuses = u.statuses.set (t - 1).toNat PStatus.Exited :=
  rfl

lemma trackHistoryPush_drop (R : Nat) (l : List String) (d : String) :
    trackHistoryPush R (l.drop (l.length - R)) d =
      (l ++ [d]).drop ((l ++ [d]).length - R) := by
  unfold trackHistoryPush
  rcases Nat.lt_or_ge l.length R with h | h
  · have h0 : l.length - R = 0 := Nat.sub_eq_zero_of_le (Nat.le_of_lt h)
    have h1 : (l ++ [d]).length - R = 0 := by
      simp only [List.length_append, List.length_cons, List.length_nil]
      omega
    rw [h0, h1, List.drop_zero, List.drop_zero, if_neg (by simp; omega)]
  · have hlen : (l.drop (l.length - R) ++ [d]).length = R + 1 := by
      simp only [List.length_append, List.length_drop, List.length_cons,
        List.length_nil]
      omega
    rw [if_pos (by omega)]
    rcases Nat.eq_zero_or_pos R with hR | hR
    · subst hR
      simp only [Nat.sub_zero, List.drop_length, List.nil_append]
    · have e2 : (l.drop (l.length - R) ++ [d]).length - R = 1 := by
        rw [hlen]; omega
      rw [e2]
      have e3 : 1 ≤ (l.drop (l.length - R)).length := by
        rw [List.length_drop]; omega
      rw [List.drop_append_of_le_length e3, List.drop_drop]
      have e4 : (l ++ [d]).length - R = l.length + 1 - R := by simp
      rw [e4]
      have e5 : l.length + 1 - R ≤ l.length := by omega
      rw [List.drop_append_of_le_length e5]
      have e6 : l.length - R + 1 = l.length + 1 - R := by omega
      rw [e6]

lemma trackHistory_foldl (R : Nat) (ds : List String) :
    ∀ l : List String,
      ds.foldl (trackHistoryPush R) (l.drop (l.length - R)) =
        (l ++ ds).drop ((l ++ ds).length - R) := by
  induction ds with
  | nil => intro l; simp
  | cons d ds ih =>
    intro l
    rw [List.foldl_cons, trackHistoryPush_drop, ih (l ++ [d])]
    simp [List.append_assoc]

lemma emod_absorb (a b n : Int) : (a % n + b) % n = (a + b) % n := by
  conv_rhs => rw [Int.add_emod]
  rw [Int.add_emod (a % n) b, Int.emod_emod_of_dvd a dvd_rfl]

lemma left_right_tab (t n : Int) (h1 : 0 ≤ t) (h2 : t < n) :
    ((t + n - 1) % n + 1) % n = t := by
  rw [emod_absorb]
  have e1 : t + n - 1 + 1 = t + n * 1 := by ring
  rw [e1, Int.add_mul_emod_self_left t n 1, Int.emod_eq_of_lt h1 h2]

lemma right_left_tab (t n : Int) (h1 : 0 ≤ t) (h2 : t < n) :
    ((t + 1) % n + n - 1) % n = t := by
  have e0 : (t + 1) % n + n - 1 = (t + 1) % n + (n - 1) := by ring
  rw [e0, emod_absorb]
  have e1 : t + 1 + (n - 1) = t + n * 1 := by ring
  rw [e1, Int.add_mul_emod_self_left t n 1, Int.emod_eq_of_lt h1 h2]

lemma reachable_pump (k : Nat) (s : State) (h : Reachable s) :
    Reachable (pump k s) := by
  induction k generalizing s with
  | zero => exact h
  | succ k ih => exact ih _ (Reachable.step s _ h (Step.childOut 0 "x" s))

/-! ## Claims -/

/-- C1 (counterexample): the claim maps a button code with bit 0x01 set
to scroll-down (`+1`) and clear to scroll-up (`-1`), but `isScrollEvent`
returns `charCodeAt(3) & 1 ? -1 : 1`: on the chunk ESC [ M followed by
code 97 (bits 0x60 both set, bit 0x01 set) the decoder yields `-1`, not
the claimed `+1`. -/
theorem C1_scroll_decode_counterexample :
    (97 &&& 96 = 96 ∧ 97 &&& 1 ≠ 0) ∧
    isScrollEvent [27, 91, 77, 97] = some (-1) ∧
    isScrollEvent [27, 91, 77, 97] ≠ some 1 := by decide

/-- C1 (amended): for every chunk beginning with ESC [ M and having a 4th
character of code `c`: if bits 0x60 of `c` are not both set the decoder
returns `null`; otherwise bit 0x01 set gives direction `-1` (scroll-up in
`scrollHandler`: the cursor moves back) and bit 0x01 clear gives `+1`
(scroll-down: the cursor moves forward). -/
theorem C1_scroll_decode_amended (event : List Nat) (c : Nat)
    (hpre : event.take 3 = [27, 91, 77]) (hc : event.get? 3 = some c) :
    (c &&& 96 ≠ 96 → isScrollEvent event = none) ∧
    (c &&& 96 = 96 → c &&& 1 ≠ 0 → isScrollEvent event = some (-1)) ∧
    (c &&& 96 = 96 → c &&& 1 = 0 → isScrollEvent event = some 1) := by
  have hstep : isScrollEvent event =
      if c &&& 96 ≠ 96 then none
      else if c &&& 1 ≠ 0 then some (-1) else some 1 := by
    unfold isScrollEvent
    rw [hpre, hc, if_pos rfl]
  refine ⟨fun h1 => ?_, fun h1 h2 => ?_, fun h1 h2 => ?_⟩ <;> rw [hstep]
  · rw [if_pos h1]
  · rw [if_neg (fun hh => hh h1), if_pos h2]
  · rw [if_neg (fun hh => hh h1), if_neg (fun hh => hh h2)]

theorem C1_scroll_decode_amended_witness :
    isScrollEvent [27, 91, 77, 97] = some (-1) ∧
    isScrollEvent [27, 91, 77, 96] = some 1 :=
  ⟨(C1_scroll_decode_amended [27, 91, 77, 97] 97 (by decide)
      (by decide)).2.1 (by decide) (by decide),
   (C1_scroll_decode_amended [27, 91, 77, 96] 96 (by decide)
      (by decide)).2.2 (by decide) (by decide)⟩

/-- C2 (code bug): on NavigateLeft the source computes the new cursor from
`histories[tab]` with the stale pre-update `tab` (`src/unnamed/part_001`
line 241), not from the newly active tab as the right branch does.  From
tab 0 (a 30-line main history, viewport 20), NavigateLeft lands on tab 1
whose history is empty, yet the cursor is set to 10 — the old tab's
maximum — instead of the new tab's maximum 0. -/
theorem C2_navigate_left_stale_cursor :
    (arrowHandler keys.left
      { tab := 0, lines := 20, processes := [0],
        histories := [List.replicate 30 "m", []], cursor := 0,
        statuses := [PStatus.Running] }).tab = 1 ∧
    (arrowHandler keys.left
      { tab := 0, lines := 20, processes := [0],
        histories := [List.replicate 30 "m", []], cursor := 0,
        statuses := [PStatus.Running] }).cursor = 10 ∧
    getHist
      (arrowHandler keys.left
        { tab := 0, lines := 20, processes := [0],
          histories := [List.replicate 30 "m", []], cursor := 0,
          statuses := [PStatus.Running] }) 1 = [] ∧
    (10 : Int) ≠ max 0 ((([] : List String).length : Int) - 20) := by decide

/-- C4: a child history buffer fed any sequence `ds` of output lines under
retention `R` (the session uses `R = 1000`) equals exactly the last `R`
lines of `ds` in their original order, and in particular never exceeds
`R` in length. -/
theorem C4_retention_fifo (R : Nat) (ds : List String) :
    trackHistoryRun R ds = ds.drop (ds.length - R) ∧
    (trackHistoryRun R ds).length ≤ R := by
  have h : trackHistoryRun R ds = ds.drop (ds.length - R) := by
    have h0 := trackHistory_foldl R ds []
    simpa [trackHistoryRun] using h0
  refine ⟨h, ?_⟩
  rw [h, List.length_drop]
  omega

set_option maxRecDepth 4000 in
/-- C3 (code bug): the cursor invariant
`0 ≤ cursor ≤ max(0, len(activeHistory) - viewportHeight)` is violated on
a reachable state.  Run: one child; the child emits 30 output chunks;
NavigateRight selects tab 1 (cursor = max(0, 30 - 20) = 10, invariant
holds); then NavigateLeft returns to the main tab (history length 1) but —
because the left branch computes the maximum from the stale tab — leaves
the cursor at 10, beyond the new active tab's maximum of 0. -/
theorem C3_cursor_invariant_violation :
    Reachable (inputStep keys.right (pump 30 (initSession 1))) ∧
    ¬ cursorInv (arrowHandler keys.left
        (inputStep keys.right (pump 30 (initSession 1)))) := by
  constructor
  · exact Reachable.step _ _ (reachable_pump 30 _ (Reachable.init 1))
      (Step.input keys.right _)
  · decide

/-- C5: NavigateLeft then NavigateRight (and vice versa) restores the
active tab, for every state whose tab is in range of its tab count. -/
theorem C5_navigation_inverse (s : State)
    (h1 : 0 ≤ s.tab) (h2 : s.tab < (s.histories.length : Int)) :
    (arrowHandler keys.right (arrowHandler keys.left s)).tab = s.tab ∧
    (arrowHandler keys.left (arrowHandler keys.right s)).tab = s.tab := by
  have hL : ∀ u : State, arrowHandler keys.left u =
      { u with
        tab := (u.tab + (u.histories.length : Int) - 1) %
          (u.histories.length : Int)
        cursor := max 0 (((getHist u u.tab).length : Int) - u.lines) } := by
    intro u
    unfold arrowHandler
    rw [if_pos rfl]
  have hR : ∀ u : State, arrowHandler keys.right u =
      { u with
        tab := (u.tab + 1) % (u.histories.length : Int)
        cursor := max 0
          (((getHist u ((u.tab + 1) % (u.histories.length : Int))).length :
            Int) - u.lines) } := by
    intro u
    unfold arrowHandler
    rw [if_neg (by decide), if_pos rfl]
  constructor
  · rw [hL s, hR]
    exact left_right_tab s.tab _ h1 h2
  · rw [hR s, hL]
    exact right_left_tab s.tab _ h1 h2

theorem C5_navigation_inverse_witness :
    (arrowHandler keys.right (arrowHandler keys.left (initSession 2))).tab =
        (initSession 2).tab ∧
    (arrowHandler keys.left (arrowHandler keys.right (initSession 2))).tab =
        (initSession 2).tab :=
  C5_navigation_inverse (initSession 2) (by decide) (by decide)

/-- C6: on a chunk decoding to ScrollUp (direction -1) the cursor drops by
exactly 1 floored at 0; on ScrollDown (direction +1) it rises by exactly 1
capped at `max(0, historyLength - viewportHeight)` of the active tab; and
in both cases the redraw flag is set exactly when the cursor changed. -/
theorem C6_scroll_cursor (data : List Nat) (s : State) :
    (isScrollEvent data = some (-1) →
      scrollHandler data s =
        ({ s with cursor := max 0 (s.cursor - 1) },
          (max 0 (s.cursor - 1) != s.cursor))) ∧
    (isScrollEvent data = some 1 →
      scrollHandler data s =
        ({ s with cursor := (min
            (max 0 (((getHist s s.tab).length : Int) - s.lines))
            (s.cursor + 1)) },
          (min (max 0 (((getHist s s.tab).length : Int) - s.lines))
              (s.cursor + 1) != s.cursor))) := by
  constructor <;> intro h <;> simp [scrollHandler, h]

theorem C6_scroll_cursor_witness :
    scrollHandler [27, 91, 77, 97]
      { tab := 0, lines := 1, processes := [], histories := [["a", "b", "c"]],
        cursor := 1, statuses := [] } =
      ({ tab := 0, lines := 1, processes := [], histories := [["a", "b", "c"]],
         cursor := 0, statuses := [] }, true) := by
  have h := (C6_scroll_cursor [27, 91, 77, 97]
    { tab := 0, lines := 1, processes := [], histories := [["a", "b", "c"]],
      cursor := 1, statuses := [] }).1 (by decide)
  rw [h]
  decide

/-- C7 (counterexample): a cursor exactly 2 lines from the tail is "within
2 lines of the tail", yet the code's test is the strict `cursor >
maxCursor - 2`, so no auto-advance and no redraw happen.  Concretely:
active tab 1, viewport 1, history `[a, b, c]`, cursor 1; the child emits a
4th line, making the maximum cursor 3; distance 3 - 1 = 2; the handler
leaves the cursor at 1 and does not redraw. -/
theorem C7_autofollow_counterexample :
    (childDataEvent 1000 0 "d"
      { tab := 1, lines := 1, processes := [0],
        histories := [[], ["a", "b", "c"]], cursor := 1,
        statuses := [PStatus.Running] }).2 = false ∧
    (childDataEvent 1000 0 "d"
      { tab := 1, lines := 1, processes := [0],
        histories := [[], ["a", "b", "c"]], cursor := 1,
        statuses := [PStatus.Running] }).1.cursor = 1 ∧
    max 0 (((getHist (childDataEvent 1000 0 "d"
      { tab := 1, lines := 1, processes := [0],
        histories := [[], ["a", "b", "c"]], cursor := 1,
        statuses := [PStatus.Running] }).1 1).length : Int) - 1) = 3 ∧
    ((3 : Int) - 1 ≤ 2 ∧ (1 : Int) ≠ 3) := by decide

/-- C7 (amended): when child `i` emits a line while tab `i + 1` is active,
let `maxCursor` be the maximum cursor of that tab computed after the
append; the cursor auto-advances to `maxCursor` with a redraw exactly when
the old cursor was strictly greater than `maxCursor - 2` (within 1 line of
the tail, or beyond it); otherwise the cursor is unchanged and no redraw
is triggered. -/
theorem C7_autofollow_amended (R : Nat) (i : Nat) (d : String) (s : State)
    (hact : (i : Int) + 1 = s.tab) :
    (s.cursor >
        max 0 (((getHist (childAppend R i d s) ((i : Int) + 1)).length : Int) -
          s.lines) - 2 →
      childDataEvent R i d s =
        ({ childAppend R i d s with cursor := (max 0
            (((getHist (childAppend R i d s) ((i : Int) + 1)).length : Int) -
              s.lines)) }, true)) ∧
    (s.cursor ≤
        max 0 (((getHist (childAppend R i d s) ((i : Int) + 1)).length : Int) -
          s.lines) - 2 →
      childDataEvent R i d s = (childAppend R i d s, false)) := by
  have hc : (childAppend R i d s).cursor = s.cursor := rfl
  have hl : (childAppend R i d s).lines = s.lines := rfl
  have ht : (childAppend R i d s).tab = s.tab := rfl
  constructor <;> intro h
  · unfold childDataEvent
    rw [if_pos (ht ▸ hact), if_pos (hc ▸ hl ▸ h)]
    rfl
  · unfold childDataEvent
    rw [if_pos (ht ▸ hact), if_neg (hc ▸ hl ▸ not_lt.mpr h)]

theorem C7_autofollow_amended_witness :
    childDataEvent 1000 0 "d"
      { tab := 1, lines := 1, processes := [0],
        histories := [[], ["a", "b", "c"]], cursor := 2,
        statuses := [PStatus.Running] } =
      ({ tab := 1, lines := 1, processes := [0],
         histories := [[], ["a", "b", "c", "d"]], cursor := 3,
         statuses := [PStatus.Running] }, true) := by
  have h := (C7_autofollow_amended 1000 0 "d"
    { tab := 1, lines := 1, processes := [0],
      histories := [[], ["a", "b", "c"]], cursor := 2,
      statuses := [PStatus.Running] } (by decide)).1 (by decide)
  rw [h]
  decide

/-- C8: SIGINT on the main tab: the handler emits `beforeExit`, sends
`kill()` (SIGTERM) to every child process in order — exactly one signal
per process — and ends the session (`process.exit` is the final effect). -/
theorem C8_interrupt_main (data : List Nat) (s : State)
    (h1 : data = keys.SIGINT) (h2 : s.tab = 0) (h3 : s.processes.Nodup) :
    (terminateHandler data s).2 =
      Effect.emitBeforeExit ::
        (s.processes.map (fun p => Effect.signal p "SIGTERM") ++
          [Effect.exitSession 0]) ∧
    (∀ p ∈ s.processes,
      ((terminateHandler data s).2.count (Effect.signal p "SIGTERM")) = 1) ∧
    (terminateHandler data s).2.getLast? = some (Effect.exitSession 0) := by
  subst h1
  have he : (terminateHandler keys.SIGINT s).2 =
      Effect.emitBeforeExit ::
        (s.processes.map (fun p => Effect.signal p "SIGTERM") ++
          [Effect.exitSession 0]) := by
    unfold terminateHandler
    rw [if_pos rfl, if_pos h2]
  refine ⟨he, fun p hp => ?_, ?_⟩
  · rw [he]
    have hinj : Function.Injective (fun p : Nat => Effect.signal p "SIGTERM") := by
      intro a b hab
      simpa using hab
    rw [List.count_cons_of_ne (by simp), List.count_append,
      List.count_map_of_injective s.processes _ hinj p,
      List.count_eq_one_of_mem h3 hp]
    simp
  · rw [he, ← List.cons_append, List.getLast?_concat]

theorem C8_interrupt_main_witness :
    ((terminateHandler keys.SIGINT
      { tab := 0, lines := 20, processes := [5, 7],
        histories := [["i"], [], []], cursor := 0,
        statuses := [PStatus.Running, PStatus.Running] }).2.count
        (Effect.signal 5 "SIGTERM") = 1) ∧
    ((terminateHandler keys.SIGINT
      { tab := 0, lines := 20, processes := [5, 7],
        histories := [["i"], [], []], cursor := 0,
        statuses := [PStatus.Running, PStatus.Running] }).2.getLast? =
      some (Effect.exitSession 0)) := by
  have h := C8_interrupt_main keys.SIGINT
    { tab := 0, lines := 20, processes := [5, 7],
      histories := [["i"], [], []], cursor := 0,
      statuses := [PStatus.Running, PStatus.Running] } rfl rfl (by decide)
  exact ⟨h.2.1 5 (by decide), h.2.2⟩

/-- C9: SIGINT on a child tab `t > 0`: the handler immediately appends
exactly two entries (a blank line and `Received SIGINT`) to tab `t`'s
history, registers the exit observer, redraws, and signals that one child
with SIGINT; when the child's exit notification is handled, the observer
appends the exit notice to the main tab and a blank line plus the restart
prompt to tab `t`, and the Process Record of child `t - 1` becomes
`Exited` (the status field and this transition are modelled from the
spec, see `PStatus` and `markExited`). -/
theorem C9_interrupt_child (data : List Nat) (s : State) (t : Int)
    (h1 : data = keys.SIGINT) (h2 : s.tab = t) (h3 : 0 < t)
    (h4 : t.toNat < s.histories.length)
    (h5 : (t - 1).toNat < s.statuses.length) :
    getHist (terminateHandler data s).1 t =
      getHist s t ++ ["\n", "Received SIGINT\n"] ∧
    (terminateHandler data s).2 =
      [Effect.registerExitObserver t, Effect.redraw,
        Effect.signal (getProc s (t - 1)) "SIGINT"] ∧
    getHist (exitObserver t (terminateHandler data s).1).1 0 =
      getHist (terminateHandler data s).1 0 ++ [exitNoticeMain t] ∧
    getHist (exitObserver t (terminateHandler data s).1).1 t =
      getHist (terminateHandler data s).1 t ++ ["\n", restartPrompt t] ∧
    (exitObserver t (terminateHandler data s).1).1.statuses.getD
      (t - 1).toNat PStatus.Running = PStatus.Exited := by
  subst h1
  subst h2
  have hterm : terminateHandler keys.SIGINT s =
      (setHist s s.tab (getHist s s.tab ++ ["\n", "Received SIGINT\n"]),
        [Effect.registerExitObserver s.tab, Effect.redraw,
          Effect.signal (getProc s (s.tab - 1)) "SIGINT"]) := by
    unfold terminateHandler
    rw [if_pos rfl, if_neg (by omega), if_pos h3]
  rw [hterm]
  set s' := setHist s s.tab (getHist s s.tab ++ ["\n", "Received SIGINT\n"])
    with hs'
  have hlen' : s'.histories.length = s.histories.length :=
    setHist_histories_length s s.tab _
  have htne : s.tab.toNat ≠ (0 : Int).toNat := by
    simp only [Int.toNat_zero]
    omega
  have h0lt : (0 : Int).toNat < s'.histories.length := by
    simp only [Int.toNat_zero]
    omega
  have htlt : s.tab.toNat <
      (setHist s' 0 (getHist s' 0 ++ [exitNoticeMain s.tab])).histories.length := by
    rw [setHist_histories_length, hlen']
    exact h4
  refine ⟨getHist_setHist_self s s.tab _ h4, rfl, ?_, ?_, ?_⟩
  · rw [exitObserver_fst, exitObserverState_unfold, getHist_markExited,
      getHist_setHist_ne _ _ _ _ htne, getHist_setHist_self s' 0 _ h0lt]
  · rw [exitObserver_fst, exitObserverState_unfold, getHist_markExited,
      getHist_setHist_self _ s.tab _ htlt,
      getHist_setHist_ne _ _ _ _ (Ne.symm htne)]
  · rw [exitObserver_fst, exitObserverState_unfold, markExited_statuses,
      setHist_statuses, setHist_statuses, hs', setHist_statuses]
    exact getD_set_self s.statuses (s.tab - 1).toNat PStatus.Exited
      PStatus.Running h5

theorem C9_interrupt_child_witness :
    getHist (terminateHandler keys.SIGINT
      { tab := 1, lines := 20, processes := [41], histories := [["i"], []],
        cursor := 0, statuses := [PStatus.Running] }).1 1 =
      ["\n", "Received SIGINT\n"] ∧
    (exitObserver 1 (terminateHandler keys.SIGINT
      { tab := 1, lines := 20, processes := [41], histories := [["i"], []],
        cursor := 0, statuses := [PStatus.Running] }).1).1.statuses.getD 0
      PStatus.Running = PStatus.Exited := by
  have h := C9_interrupt_child keys.SIGINT
    { tab := 1, lines := 20, processes := [41], histories := [["i"], []],
      cursor := 0, statuses := [PStatus.Running] } 1 rfl rfl (by decide)
    (by decide) (by decide)
  refine ⟨?_, h.2.2.2.2⟩
  rw [h.1]
  rfl

/-- C10 (frame): for every state and every input chunk — whether or not it
decodes as a scroll event — `scrollHandler` leaves the active tab, the
viewport height, the process list, every history buffer, and the statuses
unchanged; only `cursor` may differ. -/
theorem C10_scroll_frame (data : List Nat) (s : State) :
    (scrollHandler data s).1.tab = s.tab ∧
    (scrollHandler data s).1.lines = s.lines ∧
    (scrollHandler data s).1.processes = s.processes ∧
    (scrollHandler data s).1.histories = s.histories ∧
    (scrollHandler data s).1.statuses = s.statuses := by
  rcases h : isScrollEvent data with _ | d <;> simp [scrollHandler, h]

end ProcessManager
